import Mathlib

/-!
The package elasticsearchv3: the Elastic wrapper over its client library.

A shallow embedding of `elasticsearch.go`.  The package-level variables
`client` and `url` are the fields of `World`; a method with receiver
`es *Elastic` takes the handle and gives the updated handle back when it
writes to it.  The client library (`gopkg.in/olivere/elastic.v3`) and the
service behind it are the environment: every `Do()` of the library is
recorded on `World.trace` and answered by a `Service`, which sees the calls
made so far, so that its answers may change over time.  A Go function that
returns `(result, error)` returns a pair of options here, `none` standing
for `nil`; a run-time panic is the `error` side of `Except Panic`.
-/

namespace Elasticsearchv3

/-- A Go error value, identified by its message. -/
abbrev Err := String

/-- A document handed to the wrapper (an `interface{}` in the source), as its JSON text. -/
abbrev Doc := String

/-- A run-time panic of the Go program. -/
inductive Panic where
  | nilDereference
deriving DecidableEq, Repr

/-- The connection handle of the client library, `*el.Client` when not nil. -/
structure Client where
  url : String
deriving DecidableEq, Repr

/-- An index request as built by `client.Index().Index(..).Type(..).BodyJson(..)`,
with `Id(..)` applied or not; the library's fields start out empty. -/
structure IndexRequest where
  index : String
  typ : String
  body : Doc
  id : String := ""
deriving DecidableEq, Repr

/-- A bulk operation as built by `el.NewBulkIndexRequest().Index(..).Type(..).Doc(..)`,
with `Id(..)` applied or not. -/
structure BulkIndexRequest where
  index : String
  typ : String
  doc : Doc
  id : String := ""
deriving DecidableEq, Repr

/-- The library's answer to an index request; the wrapper reads `Id`. -/
structure IndexResponse where
  id : String
deriving DecidableEq, Repr

/-- The library's answer to a delete request; the wrapper reads `Found`. -/
structure DeleteResponse where
  found : Bool
deriving DecidableEq, Repr

/-- The library's answer to a get request. -/
structure GetResult where
  source : Doc
deriving DecidableEq, Repr

/-- The library's answer to a search request. -/
structure SearchResult where
  totalHits : Nat
  hits : List Doc
deriving DecidableEq, Repr

/-- The library's answer to a bulk request; the wrapper drops it. -/
structure BulkResponse where
  errors : Bool
deriving DecidableEq, Repr

/-- The library's answer to the four administrative requests; the wrapper reads `Acknowledged`. -/
structure AckResponse where
  acknowledged : Bool
deriving DecidableEq, Repr

/-- One call of the client library that goes to the service: `NewSimpleClient`
or the `Do()` of a request, with what the wrapper put in the request. -/
inductive Call where
  | newSimpleClient (url : String)
  | index (q : IndexRequest)
  | bulk (requests : List BulkIndexRequest)
  | get (index typ id : String)
  | delete (index typ id : String)
  | search (index : String) (source : Doc) (pretty : Bool)
  | indexExists (index : String)
  | createIndex (index : String) (body : String)
  | deleteIndex (index : String)
  | indexPutTemplate (name body : String)
  | indexDeleteTemplate (name : String)
deriving DecidableEq, Repr

/-- The environment: what the client library returns from each call, given the
calls made before it, and which requests the library rejects by its own check
before it uses the connection handle (`validate`, the error for a rejected
request).  Nothing is assumed about the answers; in particular a result may be
absent together with an error. -/
structure Service where
  validate : Call → Option Err
  newSimpleClient : List Call → String → Option Client × Option Err
  indexDo : List Call → IndexRequest → Option IndexResponse × Option Err
  bulkDo : List Call → List BulkIndexRequest → Option BulkResponse × Option Err
  getDo : List Call → String → String → String → Option GetResult × Option Err
  deleteDo : List Call → String → String → String → Option DeleteResponse × Option Err
  searchDo : List Call → String → Doc → Bool → Option SearchResult × Option Err
  indexExistsDo : List Call → String → Bool × Option Err
  createIndexDo : List Call → String → String → Option AckResponse × Option Err
  deleteIndexDo : List Call → String → Option AckResponse × Option Err
  indexPutTemplateDo : List Call → String → String → Option AckResponse × Option Err
  indexDeleteTemplateDo : List Call → String → Option AckResponse × Option Err

/-- The process-wide state: `var client *el.Client`, `var url`, the calls made
on the library so far (oldest first) and the lines written with package `log`. -/
structure World where
  client : Option Client := none
  url : String := "http://127.0.0.1:9200"
  trace : List Call := []
  logged : List String := []
deriving DecidableEq, Repr

/-- The library's bulk service, `*el.BulkService` when not nil: the handle it
was built from by `client.Bulk()` and its list of requests. -/
structure BulkService where
  client : Option Client
  requests : List BulkIndexRequest := []
deriving DecidableEq, Repr

/-- The handle of the source, `type Elastic struct`. -/
structure Elastic where
  index : String
  docType : String
  mapping : String
  bulk : Option BulkService := none
  bulkSize : Int := 0
deriving DecidableEq, Repr

/-- Writing one line with `log.Println` or `log.Printf`. -/
def logLine (w : World) (line : String) : World :=
  { w with logged := w.logged ++ [line] }

/-- A `Do()` of the library on a request built from handle `cl`.  The library
checks the request first and returns an error of its own, without a result,
for a request it rejects; only then does it use the handle.  With the handle
present the call is recorded and answered by the service, whose answers
include those errors.  With a nil handle a rejected request returns the
library's error (`invalid` makes the result-less answer), and any other
request panics on the handle; nothing is sent in either case. -/
def perform {α : Type} (svc : Service) (invalid : Err → α) (cl : Option Client)
    (w : World) (call : Call) (reply : List Call → α) : World × Except Panic α :=
  match cl with
  | some _ => ({ w with trace := w.trace ++ [call] }, .ok (reply w.trace))
  | none =>
    match svc.validate call with
    | some e => (w, .ok (invalid e))
    | none => (w, .error .nilDereference)

/-- The library's `BulkService.Add`: the request goes to the end of the list. -/
def BulkService.Add (s : BulkService) (q : BulkIndexRequest) : BulkService :=
  { s with requests := s.requests ++ [q] }

/-- The library's `BulkService.NumberOfActions`: the length of the list. -/
def BulkService.NumberOfActions (s : BulkService) : Int :=
  (s.requests.length : Int)

/-- The library's `BulkService.Do`: the listed requests are sent as one batch.
As the library documents it, the list is cleared when the call succeeded, so
that the service can be used for the next batch; after an error the list is
as it was.  A list that the library rejects by its own check gives the
library's error before the handle is used, as in `perform`. -/
def BulkService.Do (svc : Service) (w : World) (s : BulkService) :
    World × BulkService × Except Panic (Option BulkResponse × Option Err) :=
  match perform svc (fun e => (none, some e)) s.client w (.bulk s.requests) (fun t => svc.bulkDo t s.requests) with
  | (w1, .error p) => (w1, s, .error p)
  | (w1, .ok (res, some err)) => (w1, s, .ok (res, some err))
  | (w1, .ok (res, none)) => (w1, { s with requests := [] }, .ok (res, none))

/-- Go `func (es *Elastic) newClient() error`. -/
def newClient (svc : Service) (w : World) (_es : Elastic) : World × Option Err :=
  let w1 := logLine w ("Opening new Elastic connection to " ++ w.url)
  let (cl, err) := svc.newSimpleClient w1.trace w1.url
  let w2 := { w1 with trace := w1.trace ++ [Call.newSimpleClient w1.url] }
  match err with
  | none => ({ w2 with client := cl }, none)
  | some e => (w2, some e)

/-- Go `func (es *Elastic) CreateIndex(index string) error`. -/
def CreateIndex (svc : Service) (w : World) (es : Elastic) (index : String) :
    World × Except Panic (Option Err) :=
  let body := if es.mapping != "" then es.mapping else ""
  match perform svc (fun e => (none, some e)) w.client w (.createIndex index body)
      (fun t => svc.createIndexDo t index body) with
  | (w1, .error p) => (w1, .error p)
  | (w1, .ok (_, some err)) => (w1, .ok (some err))
  | (w1, .ok (none, none)) => (w1, .error .nilDereference)
  | (w1, .ok (some createIndex, none)) =>
    if !createIndex.acknowledged then
      (w1, .ok (some "elasticsearch did not acklowledge new index"))
    else (w1, .ok none)

/-- Go `func (es *Elastic) DeleteIndex(index string) error`. -/
def DeleteIndex (svc : Service) (w : World) (_es : Elastic) (index : String) :
    World × Except Panic (Option Err) :=
  match perform svc (fun e => (none, some e)) w.client w (.deleteIndex index) (fun t => svc.deleteIndexDo t index) with
  | (w1, .error p) => (w1, .error p)
  | (w1, .ok (_, some err)) => (w1, .ok (some err))
  | (w1, .ok (none, none)) => (w1, .error .nilDereference)
  | (w1, .ok (some deleteIndex, none)) =>
    if !deleteIndex.acknowledged then
      (w1, .ok (some "elasticsearch did not acklowledge deletion of index"))
    else (w1, .ok none)

/-- Go `func (es *Elastic) createIndex() error`. -/
def createIndex (svc : Service) (w : World) (es : Elastic) :
    World × Except Panic (Option Err) :=
  CreateIndex svc w es es.index

/-- Go `func (es *Elastic) PutIndexTemplate(name string, body string) error`. -/
def PutIndexTemplate (svc : Service) (w : World) (_es : Elastic) (name body : String) :
    World × Except Panic (Option Err) :=
  match perform svc (fun e => (none, some e)) w.client w (.indexPutTemplate name body)
      (fun t => svc.indexPutTemplateDo t name body) with
  | (w1, .error p) => (w1, .error p)
  | (w1, .ok (_, some err)) => (w1, .ok (some err))
  | (w1, .ok (none, none)) => (w1, .error .nilDereference)
  | (w1, .ok (some res, none)) =>
    if !res.acknowledged then
      (w1, .ok (some "elasticsearch did not acklowledge creation of template"))
    else (w1, .ok none)

/-- Go `func (es *Elastic) DeleteIndexTemplate(name string) error`. -/
def DeleteIndexTemplate (svc : Service) (w : World) (_es : Elastic) (name : String) :
    World × Except Panic (Option Err) :=
  match perform svc (fun e => (none, some e)) w.client w (.indexDeleteTemplate name)
      (fun t => svc.indexDeleteTemplateDo t name) with
  | (w1, .error p) => (w1, .error p)
  | (w1, .ok (_, some err)) => (w1, .ok (some err))
  | (w1, .ok (none, none)) => (w1, .error .nilDereference)
  | (w1, .ok (some res, none)) =>
    if !res.acknowledged then
      (w1, .ok (some "elasticsearch did not acklowledge deletion of tempate"))
    else (w1, .ok none)

/-- Go `func (es *Elastic) checkOwnIndex() error`. -/
def checkOwnIndex (svc : Service) (w : World) (es : Elastic) :
    World × Except Panic (Option Err) :=
  match perform svc (fun e => (false, some e)) w.client w (.indexExists es.index)
      (fun t => svc.indexExistsDo t es.index) with
  | (w1, .error p) => (w1, .error p)
  | (w1, .ok (isThere, err)) =>
    let r : World × Except Panic (Option Err) :=
      if err == none && !isThere then createIndex svc w1 es else (w1, .ok err)
    match r with
    | (w2, .error p) => (w2, .error p)
    | (w2, .ok (some e)) => (logLine w2 e, .ok (some e))
    | (w2, .ok none) => (w2, .ok none)

/-- Go `func (es *Elastic) checkClient(checkIndex bool) error`; the result of
`checkOwnIndex` is dropped, as in the source. -/
def checkClient (svc : Service) (w : World) (es : Elastic) (checkIndex : Bool) :
    World × Except Panic (Option Err) :=
  match w.client with
  | some _ => (w, .ok none)
  | none =>
    match newClient svc w es with
    | (w1, some e) => (logLine w1 e, .ok (some e))
    | (w1, none) =>
      if checkIndex then
        match checkOwnIndex svc w1 es with
        | (w2, .error p) => (w2, .error p)
        | (w2, .ok _) => (w2, .ok none)
      else (w1, .ok none)

/-- Go `func New(elasticURL, index, docType, mapping string) (*Elastic, error)`. -/
def New (svc : Service) (w : World) (elasticURL index docType mapping : String) :
    World × Elastic × Except Panic (Option Err) :=
  let w1 := if elasticURL != "" then { w with url := elasticURL } else w
  let el : Elastic := { index := index, docType := docType, mapping := mapping }
  match checkClient svc w1 el false with
  | (w2, err) => (w2, el, err)

/-- Go `func (es *Elastic) SetIndex(index string)`. -/
def SetIndex (es : Elastic) (index : String) : Elastic :=
  { es with index := index }

/-- Go `func (es *Elastic) StartBulk(size int)`; `client.Bulk()` only stores the
handle, nil or not, in the new bulk service. -/
def StartBulk (w : World) (es : Elastic) (size : Int) : Elastic :=
  { es with bulk := some { client := w.client }, bulkSize := size }

/-- Go `func (es *Elastic) StopBulk() error`; `Do()` on a nil bulk service panics. -/
def StopBulk (svc : Service) (w : World) (es : Elastic) :
    World × Elastic × Except Panic (Option Err) :=
  match es.bulk with
  | none => (w, es, .error .nilDereference)
  | some b =>
    match b.Do svc w with
    | (w1, b1, .error p) => (w1, { es with bulk := some b1 }, .error p)
    | (w1, _, .ok (_, err)) => (w1, { es with bulk := none }, .ok err)

/-- Go `func (es *Elastic) bulkIndex(doc interface{}, id string) error`. -/
def bulkIndex (svc : Service) (w : World) (es : Elastic) (doc : Doc) (id : String) :
    World × Elastic × Except Panic (Option Err) :=
  match es.bulk with
  | none => (w, es, .error .nilDereference)
  | some b =>
    let q : BulkIndexRequest := { index := es.index, typ := es.docType, doc := doc }
    let q := if id != "" then { q with id := id } else q
    let b1 := b.Add q
    if b1.NumberOfActions ≥ es.bulkSize then
      match b1.Do svc w with
      | (w1, b2, .error p) => (w1, { es with bulk := some b2 }, .error p)
      | (w1, b2, .ok (_, some err)) => (w1, { es with bulk := some b2 }, .ok (some err))
      | (w1, b2, .ok (_, none)) => (w1, { es with bulk := some b2 }, .ok none)
    else (w, { es with bulk := some b1 }, .ok none)

/-- Go `func (es *Elastic) Index(doc interface{}, id string) (string, error)`. -/
def Index (svc : Service) (w : World) (es : Elastic) (doc : Doc) (id : String) :
    World × Elastic × Except Panic (String × Option Err) :=
  if es.bulk.isSome then
    match bulkIndex svc w es doc id with
    | (w1, es1, .error p) => (w1, es1, .error p)
    | (w1, es1, .ok err) => (w1, es1, .ok ("", err))
  else
    let q : IndexRequest := { index := es.index, typ := es.docType, body := doc }
    let q := if id != "" then { q with id := id } else q
    match perform svc (fun e => (none, some e)) w.client w (.index q) (fun t => svc.indexDo t q) with
    | (w1, .error p) => (w1, es, .error p)
    | (w1, .ok (_, some err)) => (w1, es, .ok ("", some err))
    | (w1, .ok (none, none)) => (w1, es, .error .nilDereference)
    | (w1, .ok (some res, none)) => (w1, es, .ok (res.id, none))

/-- Go `func (es *Elastic) Get(id string) (*el.GetResult, error)`. -/
def Get (svc : Service) (w : World) (es : Elastic) (id : String) :
    World × Except Panic (Option GetResult × Option Err) :=
  perform svc (fun e => (none, some e)) w.client w (.get es.index es.docType id)
    (fun t => svc.getDo t es.index es.docType id)

/-- Go `func (es *Elastic) Delete(id string) (bool, error)`: `res.Found` is read
whatever `err` is, so a nil `res` panics. -/
def Delete (svc : Service) (w : World) (es : Elastic) (id : String) :
    World × Except Panic (Bool × Option Err) :=
  match perform svc (fun e => (none, some e)) w.client w (.delete es.index es.docType id)
      (fun t => svc.deleteDo t es.index es.docType id) with
  | (w1, .error p) => (w1, .error p)
  | (w1, .ok (none, _)) => (w1, .error .nilDereference)
  | (w1, .ok (some res, err)) => (w1, .ok (res.found, err))

/-- Go `func (es *Elastic) Search(json interface{}) (*el.SearchResult, error)`. -/
def Search (svc : Service) (w : World) (es : Elastic) (json : Doc) :
    World × Except Panic (Option SearchResult × Option Err) :=
  perform svc (fun e => (none, some e)) w.client w (.search es.index json true)
    (fun t => svc.searchDo t es.index json true)

/-- Go `func (es *Elastic) IndexExists(index string) (bool, error)`. -/
def IndexExists (svc : Service) (w : World) (_es : Elastic) (index : String) :
    World × Except Panic (Bool × Option Err) :=
  perform svc (fun e => (false, some e)) w.client w (.indexExists index) (fun t => svc.indexExistsDo t index)

/-- The bulk operation that `bulkIndex` builds for one call on a handle bound to
`index` and `docType`. -/
def opOf (index docType : String) (doc : Doc) (id : String) : BulkIndexRequest :=
  { index := index, typ := docType, doc := doc, id := id }

/-- The bulk operations of a list of calls, in call order. -/
def opsOf (index docType : String) (calls : List (Doc × String)) : List BulkIndexRequest :=
  calls.map (fun dc => opOf index docType dc.1 dc.2)

/-- A run of `Index` calls on one handle, one `(doc, id)` after the other; the
run ends at the first call that panics. -/
def indexEach (svc : Service) (w : World) (es : Elastic) :
    List (Doc × String) → World × Elastic × Except Panic (List (String × Option Err))
  | [] => (w, es, .ok [])
  | c :: rest =>
    match Index svc w es c.1 c.2 with
    | (w1, es1, .error p) => (w1, es1, .error p)
    | (w1, es1, .ok r) =>
      match indexEach svc w1 es1 rest with
      | (w2, es2, .error p) => (w2, es2, .error p)
      | (w2, es2, .ok rs) => (w2, es2, .ok (r :: rs))

/-- The batches of `T` consecutive operations of `ops`, as bulk calls: the
`k`-th one holds the operations `k * T`, ..., `k * T + T - 1`. -/
def fullBatches (T : Nat) (ops : List BulkIndexRequest) : List Call :=
  (List.range (ops.length / T)).map (fun k => Call.bulk ((ops.drop (k * T)).take T))

/-! ## Sample environments and handles -/

/-- The connection handle for the default endpoint. -/
def localClient : Client := { url := "http://127.0.0.1:9200" }

/-- The names of the fields that are empty, as an error; none when all are set. -/
def missingFields (fields : List (String × String)) : Option Err :=
  match (fields.filter (fun f => f.2 == "")).map (fun f => f.1) with
  | [] => none
  | names => some ("missing required fields: [" ++ " ".intercalate names ++ "]")

/-- A request check for the sample services: a request with an empty required
field is rejected, and so is an empty bulk batch. -/
def sampleChecks : Call → Option Err
  | .newSimpleClient _ => none
  | .index q => missingFields [("Index", q.index), ("Type", q.typ)]
  | .bulk requests =>
    if requests.isEmpty then some "elastic: No bulk actions to commit" else none
  | .get index typ id => missingFields [("Id", id), ("Index", index), ("Type", typ)]
  | .delete index typ id => missingFields [("Type", typ), ("Id", id), ("Index", index)]
  | .search _ _ _ => none
  | .indexExists index => missingFields [("Index", index)]
  | .createIndex index _ => if index == "" then some "missing index name" else none
  | .deleteIndex index => missingFields [("Index", index)]
  | .indexPutTemplate name body => missingFields [("Name", name), ("BodyJson", body)]
  | .indexDeleteTemplate name => missingFields [("Name", name)]

/-- A service on which every call succeeds: writes are accepted under the
requested identifier, administrative requests are acknowledged, and no index
exists yet. -/
def okService : Service where
  validate := sampleChecks
  newSimpleClient := fun _ url => (some { url := url }, none)
  indexDo := fun _ q => (some { id := q.id }, none)
  bulkDo := fun _ _ => (some { errors := false }, none)
  getDo := fun _ _ _ _ => (some { source := "doc" }, none)
  deleteDo := fun _ _ _ _ => (some { found := true }, none)
  searchDo := fun _ _ _ _ => (some { totalHits := 0, hits := [] }, none)
  indexExistsDo := fun _ _ => (false, none)
  createIndexDo := fun _ _ _ => (some { acknowledged := true }, none)
  deleteIndexDo := fun _ _ => (some { acknowledged := true }, none)
  indexPutTemplateDo := fun _ _ _ => (some { acknowledged := true }, none)
  indexDeleteTemplateDo := fun _ _ => (some { acknowledged := true }, none)

/-- A service on which every call fails: no result, and an error. -/
def downService : Service where
  validate := sampleChecks
  newSimpleClient := fun _ _ => (none, some "no Elasticsearch node available")
  indexDo := fun _ _ => (none, some "no Elasticsearch node available")
  bulkDo := fun _ _ => (none, some "no Elasticsearch node available")
  getDo := fun _ _ _ _ => (none, some "no Elasticsearch node available")
  deleteDo := fun _ _ _ _ => (none, some "no Elasticsearch node available")
  searchDo := fun _ _ _ _ => (none, some "no Elasticsearch node available")
  indexExistsDo := fun _ _ => (false, some "no Elasticsearch node available")
  createIndexDo := fun _ _ _ => (none, some "no Elasticsearch node available")
  deleteIndexDo := fun _ _ => (none, some "no Elasticsearch node available")
  indexPutTemplateDo := fun _ _ _ => (none, some "no Elasticsearch node available")
  indexDeleteTemplateDo := fun _ _ => (none, some "no Elasticsearch node available")

/-- A service whose first construction of a connection handle fails and whose
later calls all succeed. -/
def lateService : Service :=
  { okService with
    newSimpleClient := fun t url =>
      if t.isEmpty then (none, some "no Elasticsearch node available")
      else (some { url := url }, none) }

/-- A service for which a connection handle can be built for the default
endpoint only; every call through a handle succeeds. -/
def localService : Service :=
  { okService with
    newSimpleClient := fun _ url =>
      if url = "http://127.0.0.1:9200" then (some { url := url }, none)
      else (none, some "no Elasticsearch node available") }

/-- A service that answers the four administrative requests without error and
without acknowledgment. -/
def silentService : Service :=
  { okService with
    createIndexDo := fun _ _ _ => (some { acknowledged := false }, none)
    deleteIndexDo := fun _ _ => (some { acknowledged := false }, none)
    indexPutTemplateDo := fun _ _ _ => (some { acknowledged := false }, none)
    indexDeleteTemplateDo := fun _ _ => (some { acknowledged := false }, none) }

/-- The process state at start: no connection handle, the default endpoint. -/
def freshWorld : World := {}

/-- A process state in which the connection handle is set. -/
def connectedWorld : World := { client := some localClient }

/-- The handle of the tests, bound to index `unit_test` and type `test`. -/
def testHandle : Elastic := { index := "unit_test", docType := "test", mapping := "" }

/-- The test handle in bulk mode with threshold 2 and one operation pending. -/
def bulkHandle : Elastic :=
  { testHandle with
    bulk := some { client := some localClient,
                   requests := [opOf "unit_test" "test" "bla" "1"] }
    bulkSize := 2 }

/-! ## Bulk mode: one flush per `T` calls -/

theorem perform_some {α : Type} (svc : Service) (invalid : Err → α) (c : Client)
    (w : World) (call : Call) (reply : List Call → α) :
    perform svc invalid (some c) w call reply
      = ({ w with trace := w.trace ++ [call] }, .ok (reply w.trace)) := rfl

theorem perform_none {α : Type} (svc : Service) (invalid : Err → α) (w : World)
    (call : Call) (reply : List Call → α) :
    (perform svc invalid none w call reply).1 = w := by
  unfold perform
  cases svc.validate call <;> rfl

theorem fullBatches_short (T : Nat) (ops : List BulkIndexRequest) (h : ops.length < T) :
    fullBatches T ops = [] := by
  simp [fullBatches, Nat.div_eq_of_lt h]

theorem fullBatches_append (T : Nat) (a b : List BulkIndexRequest) (hT : 0 < T)
    (ha : a.length = T) :
    fullBatches T (a ++ b) = Call.bulk a :: fullBatches T b := by
  have hdiv : (a ++ b).length / T = b.length / T + 1 := by
    rw [List.length_append, ha, Nat.add_comm, Nat.add_div_right _ hT]
  unfold fullBatches
  rw [hdiv, List.range_succ_eq_map, List.map_cons, List.map_map]
  congr 1
  · simp [← ha]
  · apply List.map_congr_left
    intro k _
    have : (k + 1) * T = a.length + k * T := by rw [ha]; ring
    simp only [Function.comp, this, ← List.drop_drop, List.drop_left]

theorem bulk_request_eq (es : Elastic) (doc : Doc) (id : String) :
    (if id != "" then
        { ({ index := es.index, typ := es.docType, doc := doc } : BulkIndexRequest)
          with id := id }
      else { index := es.index, typ := es.docType, doc := doc })
      = opOf es.index es.docType doc id := by
  by_cases h : id = ""
  · subst h; rfl
  · simp [h, opOf]

/-- What one `Index` call does on a handle in bulk mode whose bulk service was
built from a present connection handle. -/
theorem Index_bulk (svc : Service) (w : World) (es : Elastic) (b : BulkService)
    (c : Client) (doc : Doc) (id : String) (hb : es.bulk = some b)
    (hc : b.client = some c) :
    Index svc w es doc id =
      if ((b.requests ++ [opOf es.index es.docType doc id]).length : Int) ≥ es.bulkSize then
        ({ w with trace := w.trace ++
              [Call.bulk (b.requests ++ [opOf es.index es.docType doc id])] },
         { es with bulk := some { b with requests :=
              match (svc.bulkDo w.trace
                (b.requests ++ [opOf es.index es.docType doc id])).2 with
              | some _ => b.requests ++ [opOf es.index es.docType doc id]
              | none => [] } },
         .ok ("", (svc.bulkDo w.trace (b.requests ++ [opOf es.index es.docType doc id])).2))
      else
        (w, { es with bulk := some { b with requests :=
              b.requests ++ [opOf es.index es.docType doc id] } },
         .ok ("", none)) := by
  have hq := bulk_request_eq es doc id
  unfold Index bulkIndex
  simp only [hb, Option.isSome_some, if_true]
  rw [hq]
  simp only [BulkService.NumberOfActions, BulkService.Add]
  split_ifs with hge
  · simp only [BulkService.Do, hc, perform_some]
    rcases hr : svc.bulkDo w.trace (b.requests ++ [opOf es.index es.docType doc id])
      with ⟨res, _ | e⟩ <;> rfl
  · rfl

/-- A run of `Index` calls in bulk mode, from any queue shorter than the
threshold, when every batch is accepted. -/
theorem indexEach_bulk (svc : Service) (c : Client) (T : Nat) (hT : 0 < T)
    (hok : ∀ t reqs, (svc.bulkDo t reqs).2 = none) (index docType mapping : String)
    (calls : List (Doc × String)) :
    ∀ (w : World) (q : List BulkIndexRequest), q.length < T →
      indexEach svc w
          { index := index, docType := docType, mapping := mapping,
            bulk := some { client := some c, requests := q }, bulkSize := (T : Int) } calls
        = ({ w with trace := w.trace ++ fullBatches T (q ++ opsOf index docType calls) },
           { index := index, docType := docType, mapping := mapping,
             bulk := some { client := some c, requests :=
               (q ++ opsOf index docType calls).drop ((q.length + calls.length) / T * T) },
             bulkSize := (T : Int) },
           .ok (List.replicate calls.length ("", none))) := by
  induction calls with
  | nil =>
    intro w q hq
    simp [indexEach, opsOf, fullBatches_short T q hq, Nat.div_eq_of_lt hq]
  | cons dc rest ih =>
    intro w q hq
    obtain ⟨doc, id⟩ := dc
    unfold indexEach
    rw [Index_bulk svc w _ { client := some c, requests := q } c doc id rfl rfl]
    have hops : opsOf index docType ((doc, id) :: rest)
        = opOf index docType doc id :: opsOf index docType rest := rfl
    by_cases hfull : q.length + 1 = T
    · have hge : ((q ++ [opOf index docType doc id]).length : Int) ≥ (T : Int) := by
        simp only [List.length_append, List.length_singleton]; omega
      simp only [hge, if_true, hok]
      rw [ih _ [] (by simpa using hT)]
      have hlen : (q ++ [opOf index docType doc id]).length = T := by simp [hfull]
      have hb := fullBatches_append T _ (opsOf index docType rest) hT hlen
      have hd : (q.length + (rest.length + 1)) / T * T = T + rest.length / T * T := by
        rw [show q.length + (rest.length + 1) = rest.length + T by omega,
          Nat.add_div_right _ hT]; ring
      have hdrop : ∀ (l : List BulkIndexRequest) (m : Nat),
          List.drop (T + m) ((q ++ [opOf index docType doc id]) ++ l) = List.drop m l := by
        intro l m
        rw [← hlen, ← List.drop_drop, List.drop_left]
      rw [hops, show q ++ opOf index docType doc id :: opsOf index docType rest
          = (q ++ [opOf index docType doc id]) ++ opsOf index docType rest by simp,
        hb, List.length_cons, hd, hdrop]
      simp [List.replicate_succ]
    · have hlt : ¬ ((q ++ [opOf index docType doc id]).length : Int) ≥ (T : Int) := by
        simp only [List.length_append, List.length_singleton]; omega
      simp only [hlt, if_false]
      rw [ih _ (q ++ [opOf index docType doc id]) (by
        simp only [List.length_append, List.length_singleton]; omega)]
      rw [hops]
      simp only [List.length_cons, List.length_append, List.length_singleton,
        List.append_assoc, List.singleton_append, List.replicate_succ]
      rw [show q.length + (([] : List BulkIndexRequest).length + 1) + rest.length
        = q.length + (rest.length + 1) by simp only [List.length_nil]; omega]

/-- C1: after `StartBulk(T)` with `T ≥ 1` and `n` calls of `Index`, every batch
being accepted, the calls made on the service are exactly `n / T` bulk batches,
the `k`-th holding the operations `k * T` to `k * T + T - 1` of the calls in call
order, each of them `T` operations long; the `n % T` operations after the last
batch are pending, and every call returned the empty identifier and no error.
With `n = T` this is one batch of all `T` operations and an empty queue. -/
theorem C1_bulk_flush_every_threshold (svc : Service) (w : World) (es : Elastic)
    (c : Client) (T : Nat) (calls : List (Doc × String)) (hT : 1 ≤ T)
    (hc : w.client = some c) (hok : ∀ t reqs, (svc.bulkDo t reqs).2 = none) :
    (indexEach svc w (StartBulk w es (T : Int)) calls).1.trace
        = w.trace ++ (List.range (calls.length / T)).map
            (fun k => Call.bulk (((opsOf es.index es.docType calls).drop (k * T)).take T))
    ∧ (∀ k, k < calls.length / T →
        (((opsOf es.index es.docType calls).drop (k * T)).take T).length = T)
    ∧ (indexEach svc w (StartBulk w es (T : Int)) calls).2.1.bulk
        = some { client := some c,
                 requests := (opsOf es.index es.docType calls).drop (calls.length / T * T) }
    ∧ ((opsOf es.index es.docType calls).drop (calls.length / T * T)).length
        = calls.length % T
    ∧ (indexEach svc w (StartBulk w es (T : Int)) calls).2.2
        = .ok (List.replicate calls.length ("", none))
    ∧ (calls.length = T →
        (indexEach svc w (StartBulk w es (T : Int)) calls).1.trace
            = w.trace ++ [Call.bulk (opsOf es.index es.docType calls)]
        ∧ (indexEach svc w (StartBulk w es (T : Int)) calls).2.1.bulk
            = some { client := some c, requests := [] }) := by
  have hlen : (opsOf es.index es.docType calls).length = calls.length := by simp [opsOf]
  have hrun := indexEach_bulk svc c T hT hok es.index es.docType es.mapping calls w []
    (by simpa using hT)
  have hstart : StartBulk w es (T : Int)
      = { index := es.index, docType := es.docType, mapping := es.mapping,
          bulk := some { client := some c, requests := [] }, bulkSize := (T : Int) } := by
    simp [StartBulk, hc]
  rw [hstart, hrun]
  simp only [List.nil_append, List.length_nil, Nat.zero_add, fullBatches, hlen]
  refine ⟨trivial, ?_, trivial, ?_, trivial, ?_⟩
  · intro k hk
    have h1 : (k + 1) * T ≤ calls.length :=
      le_trans (Nat.mul_le_mul_right T hk) (Nat.div_mul_le_self _ _)
    rw [List.length_take, List.length_drop, hlen]
    have : (k + 1) * T = k * T + T := by ring
    omega
  · rw [List.length_drop, hlen]
    have := Nat.div_add_mod calls.length T
    rw [Nat.mul_comm] at this
    omega
  · intro hn
    have h1 : calls.length / T = 1 := by rw [hn]; exact Nat.div_self hT
    have hT2 : T = (opsOf es.index es.docType calls).length := by rw [hlen, hn]
    rw [h1]
    constructor
    · simp [List.range_succ, ← hT2]
    · simp [hT2]

/-- C1 at work: threshold 2 and three calls give one batch of the first two
operations, and the third one pending. -/
theorem C1_bulk_flush_every_threshold_witness :
    (indexEach okService connectedWorld (StartBulk connectedWorld testHandle 2)
        [("bla", "1"), ("blubb", ""), ("bling", "asf2")]).1.trace
      = [Call.bulk [opOf "unit_test" "test" "bla" "1", opOf "unit_test" "test" "blubb" ""]]
    ∧ (indexEach okService connectedWorld (StartBulk connectedWorld testHandle 2)
        [("bla", "1"), ("blubb", ""), ("bling", "asf2")]).2.1.bulk
      = some { client := some localClient,
               requests := [opOf "unit_test" "test" "bling" "asf2"] } := by
  have h := C1_bulk_flush_every_threshold okService connectedWorld testHandle localClient 2
    [("bla", "1"), ("blubb", ""), ("bling", "asf2")] (by decide) rfl (fun _ _ => rfl)
  exact ⟨h.1, h.2.2.1⟩

/-! ## Bulk mode: what `Index` returns, and a failed flush -/

/-- C2 as stated fails: on a handle in bulk mode whose call reaches the
threshold while the service refuses the batch, `Index` returns the empty
identifier together with the error of the batch. -/
theorem C2_bulk_index_error_counterexample :
    bulkHandle.bulk.isSome = true
    ∧ (Index downService connectedWorld bulkHandle "blubb" "2").2.2
        = .ok ("", some "no Elasticsearch node available") := by
  constructor <;> rfl

/-- C2, amended: on a handle in bulk mode (its bulk service built from a present
connection handle), for every document and identifier, `Index` returns the
empty identifier; the error it returns is that of the batch submission when
the call reaches the threshold, and no error otherwise. -/
theorem C2_bulk_index_returns (svc : Service) (w : World) (es : Elastic)
    (b : BulkService) (c : Client) (doc : Doc) (id : String) (hb : es.bulk = some b)
    (hc : b.client = some c) :
    (Index svc w es doc id).2.2
      = .ok ("", if ((b.requests.length + 1 : Nat) : Int) ≥ es.bulkSize then
                   (svc.bulkDo w.trace (b.requests ++ [opOf es.index es.docType doc id])).2
                 else none) := by
  rw [Index_bulk svc w es b c doc id hb hc]
  simp only [List.length_append, List.length_singleton]
  split_ifs <;> rfl

/-- C2 amended, at work: below the threshold no error, at the threshold the
error of the refused batch. -/
theorem C2_bulk_index_returns_witness :
    (Index downService connectedWorld { bulkHandle with bulkSize := 5 } "blubb" "").2.2
        = .ok ("", none)
    ∧ (Index downService connectedWorld bulkHandle "blubb" "").2.2
        = .ok ("", some "no Elasticsearch node available") :=
  ⟨C2_bulk_index_returns downService connectedWorld { bulkHandle with bulkSize := 5 }
      { client := some localClient, requests := [opOf "unit_test" "test" "bla" "1"] }
      localClient "blubb" "" rfl rfl,
   C2_bulk_index_returns downService connectedWorld bulkHandle
      { client := some localClient, requests := [opOf "unit_test" "test" "bla" "1"] }
      localClient "blubb" "" rfl rfl⟩

/-- C3 as stated fails: after a call whose flush was refused, the queue is not
empty; it holds the refused batch, and the next call submits that batch again
together with its own operation. -/
theorem C3_failed_flush_counterexample :
    (Index downService connectedWorld bulkHandle "blubb" "2").2.2
        = .ok ("", some "no Elasticsearch node available")
    ∧ (Index downService connectedWorld bulkHandle "blubb" "2").2.1.bulk
        = some { client := some localClient,
                 requests := [opOf "unit_test" "test" "bla" "1",
                              opOf "unit_test" "test" "blubb" "2"] }
    ∧ (Index okService
          (Index downService connectedWorld bulkHandle "blubb" "2").1
          (Index downService connectedWorld bulkHandle "blubb" "2").2.1 "bling" "3").1.trace
        = [Call.bulk [opOf "unit_test" "test" "bla" "1", opOf "unit_test" "test" "blubb" "2"],
           Call.bulk [opOf "unit_test" "test" "bla" "1", opOf "unit_test" "test" "blubb" "2",
                      opOf "unit_test" "test" "bling" "3"]] := by
  refine ⟨rfl, rfl, rfl⟩

/-- C3, amended: when an `Index` call in bulk mode reaches the threshold and the
batch submission fails, the call returns that error and the handle keeps the
whole batch pending (the operations pending before the call, then the new
one); the wrapper neither clears nor requeues anything, and the next `Index`
call submits the kept batch again, followed by its own operation. -/
theorem C3_failed_flush_keeps_batch (svc : Service) (w : World) (es : Elastic)
    (b : BulkService) (c : Client) (doc : Doc) (id : String) (e : Err)
    (hb : es.bulk = some b) (hc : b.client = some c)
    (hfull : ((b.requests.length + 1 : Nat) : Int) ≥ es.bulkSize)
    (hfail : (svc.bulkDo w.trace (b.requests ++ [opOf es.index es.docType doc id])).2
      = some e) :
    Index svc w es doc id
      = ({ w with trace := w.trace ++
            [Call.bulk (b.requests ++ [opOf es.index es.docType doc id])] },
         { es with bulk := some { b with requests :=
            b.requests ++ [opOf es.index es.docType doc id] } },
         .ok ("", some e))
    ∧ ∀ (doc2 : Doc) (id2 : String),
        (Index svc (Index svc w es doc id).1 (Index svc w es doc id).2.1 doc2 id2).1.trace
          = w.trace ++
            [Call.bulk (b.requests ++ [opOf es.index es.docType doc id]),
             Call.bulk (b.requests ++ [opOf es.index es.docType doc id,
                                       opOf es.index es.docType doc2 id2])] := by
  have hstep : Index svc w es doc id
      = ({ w with trace := w.trace ++
            [Call.bulk (b.requests ++ [opOf es.index es.docType doc id])] },
         { es with bulk := some { b with requests :=
            b.requests ++ [opOf es.index es.docType doc id] } },
         .ok ("", some e)) := by
    rw [Index_bulk svc w es b c doc id hb hc]
    have hge : ((b.requests ++ [opOf es.index es.docType doc id]).length : Int)
        ≥ es.bulkSize := by
      simpa only [List.length_append, List.length_singleton] using hfull
    simp only [hge, if_true, hfail]
  refine ⟨hstep, ?_⟩
  intro doc2 id2
  rw [hstep, Index_bulk svc _ _ { b with requests :=
      b.requests ++ [opOf es.index es.docType doc id] } c doc2 id2 rfl hc]
  have hge2 : (((b.requests ++ [opOf es.index es.docType doc id]) ++
      [opOf es.index es.docType doc2 id2]).length : Int) ≥ es.bulkSize := by
    simp only [List.length_append, List.length_singleton] at hfull ⊢
    push_cast at hfull ⊢
    omega
  simp only [List.append_assoc, List.singleton_append] at hge2 ⊢
  simp only [hge2, if_true]

/-- C3 amended, at work on the sample handle. -/
theorem C3_failed_flush_keeps_batch_witness :
    Index downService connectedWorld bulkHandle "blubb" "2"
      = ({ connectedWorld with trace :=
            [Call.bulk [opOf "unit_test" "test" "bla" "1",
                        opOf "unit_test" "test" "blubb" "2"]] },
         { bulkHandle with bulk := some { client := some localClient, requests :=
            [opOf "unit_test" "test" "bla" "1", opOf "unit_test" "test" "blubb" "2"] } },
         .ok ("", some "no Elasticsearch node available")) :=
  (C3_failed_flush_keeps_batch downService connectedWorld bulkHandle
    { client := some localClient, requests := [opOf "unit_test" "test" "bla" "1"] }
    localClient "blubb" "2" "no Elasticsearch node available" rfl rfl (by decide) rfl).1

/-- What `Index` does on a handle in direct mode when the connection handle is
set: one index request for the handle's index and type. -/
theorem Index_direct (svc : Service) (w : World) (es : Elastic) (c : Client)
    (doc : Doc) (id : String) (hb : es.bulk = none) (hc : w.client = some c) :
    (Index svc w es doc id).1
      = { w with trace := w.trace ++
          [Call.index { index := es.index, typ := es.docType, body := doc, id := id }] } := by
  have hq : (if id != "" then
        { ({ index := es.index, typ := es.docType, body := doc } : IndexRequest)
          with id := id }
      else { index := es.index, typ := es.docType, body := doc })
      = { index := es.index, typ := es.docType, body := doc, id := id } := by
    by_cases h : id = ""
    · subst h; rfl
    · simp [h]
  unfold Index
  simp only [hb, Option.isSome_none, Bool.false_eq_true, if_false]
  rw [hq]
  simp only [hc, perform_some]
  rcases svc.indexDo w.trace { index := es.index, typ := es.docType, body := doc, id := id }
    with ⟨_ | res, _ | err⟩ <;> rfl

/-- C4: on a handle in bulk mode, whatever is pending, `StopBulk` hands the
pending operations to the service as one batch, returns exactly the error of
that submission (none when it succeeds) and leaves the handle in direct mode
in either case; the next `Index` call is then sent as a request of its own. -/
theorem C4_stop_bulk (svc : Service) (w : World) (es : Elastic) (b : BulkService)
    (c : Client) (hb : es.bulk = some b) (hc : b.client = some c)
    (hw : w.client = some c) :
    StopBulk svc w es
      = ({ w with trace := w.trace ++ [Call.bulk b.requests] },
         { es with bulk := none },
         .ok (svc.bulkDo w.trace b.requests).2)
    ∧ ∀ (doc : Doc) (id : String),
        (Index svc (StopBulk svc w es).1 (StopBulk svc w es).2.1 doc id).1.trace
          = w.trace ++ [Call.bulk b.requests,
              Call.index { index := es.index, typ := es.docType, body := doc, id := id }] := by
  have hstop : StopBulk svc w es
      = ({ w with trace := w.trace ++ [Call.bulk b.requests] },
         { es with bulk := none },
         .ok (svc.bulkDo w.trace b.requests).2) := by
    unfold StopBulk
    simp only [hb, BulkService.Do, hc, perform_some]
    rcases svc.bulkDo w.trace b.requests with ⟨res, _ | err⟩ <;> rfl
  refine ⟨hstop, ?_⟩
  intro doc id
  rw [hstop]
  have h := Index_direct svc { w with trace := w.trace ++ [Call.bulk b.requests] }
    { es with bulk := none } c doc id rfl hw
  simp only [h, List.append_assoc, List.singleton_append]

/-- C4 at work: an under-threshold queue is submitted, the refusal is
returned, and the handle is in direct mode afterwards. -/
theorem C4_stop_bulk_witness :
    StopBulk downService connectedWorld bulkHandle
      = ({ connectedWorld with trace := [Call.bulk [opOf "unit_test" "test" "bla" "1"]] },
         { bulkHandle with bulk := none },
         .ok (some "no Elasticsearch node available")) :=
  (C4_stop_bulk downService connectedWorld bulkHandle
    { client := some localClient, requests := [opOf "unit_test" "test" "bla" "1"] }
    localClient rfl rfl rfl).1

/-! ## Delete -/

/-- C5, the code at the failing input: the service answers the delete request
with no result and an error; `Delete` reads `Found` from the absent result and
panics instead of returning the error, whereas `Index` on the same handle and
service returns the error. -/
theorem C5_delete_panics_without_result :
    downService.deleteDo [] "unit_test" "test" "2"
        = (none, some "no Elasticsearch node available")
    ∧ Delete downService connectedWorld testHandle "2"
        = ({ connectedWorld with trace := [Call.delete "unit_test" "test" "2"] },
           .error .nilDereference)
    ∧ (Index downService connectedWorld testHandle "bla" "2").2.2
        = .ok ("", some "no Elasticsearch node available") := by
  refine ⟨rfl, rfl, rfl⟩

/-! ## Administrative requests -/

theorem mapping_body_eq (es : Elastic) :
    (if es.mapping != "" then es.mapping else "") = es.mapping := by
  by_cases h : es.mapping = ""
  · simp [h]
  · simp [h]

/-- C6: with the connection handle set, each of `CreateIndex`, `DeleteIndex`,
`PutIndexTemplate` and `DeleteIndexTemplate`, for every answer of the service,
returns no error exactly when the answer has no error and an acknowledged
response; an error of the call is returned as it is; an unacknowledged
response without error becomes the operation's own descriptive error. -/
theorem C6_acknowledgment_required (svc : Service) (w : World) (es : Elastic)
    (c : Client) (index name body : String) (hw : w.client = some c) :
    (((CreateIndex svc w es index).2 = .ok none ↔
        (svc.createIndexDo w.trace index es.mapping).2 = none
        ∧ ∃ r, (svc.createIndexDo w.trace index es.mapping).1 = some r
            ∧ r.acknowledged = true)
      ∧ (∀ e, (svc.createIndexDo w.trace index es.mapping).2 = some e →
          (CreateIndex svc w es index).2 = .ok (some e))
      ∧ (∀ r, (svc.createIndexDo w.trace index es.mapping).2 = none →
          (svc.createIndexDo w.trace index es.mapping).1 = some r →
          r.acknowledged = false →
          (CreateIndex svc w es index).2
            = .ok (some "elasticsearch did not acklowledge new index")))
    ∧ (((DeleteIndex svc w es index).2 = .ok none ↔
        (svc.deleteIndexDo w.trace index).2 = none
        ∧ ∃ r, (svc.deleteIndexDo w.trace index).1 = some r ∧ r.acknowledged = true)
      ∧ (∀ e, (svc.deleteIndexDo w.trace index).2 = some e →
          (DeleteIndex svc w es index).2 = .ok (some e))
      ∧ (∀ r, (svc.deleteIndexDo w.trace index).2 = none →
          (svc.deleteIndexDo w.trace index).1 = some r →
          r.acknowledged = false →
          (DeleteIndex svc w es index).2
            = .ok (some "elasticsearch did not acklowledge deletion of index")))
    ∧ (((PutIndexTemplate svc w es name body).2 = .ok none ↔
        (svc.indexPutTemplateDo w.trace name body).2 = none
        ∧ ∃ r, (svc.indexPutTemplateDo w.trace name body).1 = some r
            ∧ r.acknowledged = true)
      ∧ (∀ e, (svc.indexPutTemplateDo w.trace name body).2 = some e →
          (PutIndexTemplate svc w es name body).2 = .ok (some e))
      ∧ (∀ r, (svc.indexPutTemplateDo w.trace name body).2 = none →
          (svc.indexPutTemplateDo w.trace name body).1 = some r →
          r.acknowledged = false →
          (PutIndexTemplate svc w es name body).2
            = .ok (some "elasticsearch did not acklowledge creation of template")))
    ∧ (((DeleteIndexTemplate svc w es name).2 = .ok none ↔
        (svc.indexDeleteTemplateDo w.trace name).2 = none
        ∧ ∃ r, (svc.indexDeleteTemplateDo w.trace name).1 = some r
            ∧ r.acknowledged = true)
      ∧ (∀ e, (svc.indexDeleteTemplateDo w.trace name).2 = some e →
          (DeleteIndexTemplate svc w es name).2 = .ok (some e))
      ∧ (∀ r, (svc.indexDeleteTemplateDo w.trace name).2 = none →
          (svc.indexDeleteTemplateDo w.trace name).1 = some r →
          r.acknowledged = false →
          (DeleteIndexTemplate svc w es name).2
            = .ok (some "elasticsearch did not acklowledge deletion of tempate"))) := by
  refine ⟨?_, ?_, ?_, ?_⟩
  · unfold CreateIndex
    simp only [mapping_body_eq, hw, perform_some]
    rcases svc.createIndexDo w.trace index es.mapping with ⟨_ | ⟨_ | _⟩, _ | e⟩ <;> simp
  · unfold DeleteIndex
    simp only [hw, perform_some]
    rcases svc.deleteIndexDo w.trace index with ⟨_ | ⟨_ | _⟩, _ | e⟩ <;> simp
  · unfold PutIndexTemplate
    simp only [hw, perform_some]
    rcases svc.indexPutTemplateDo w.trace name body with ⟨_ | ⟨_ | _⟩, _ | e⟩ <;> simp
  · unfold DeleteIndexTemplate
    simp only [hw, perform_some]
    rcases svc.indexDeleteTemplateDo w.trace name with ⟨_ | ⟨_ | _⟩, _ | e⟩ <;> simp

/-- C6 at work: an unacknowledged answer without error gives the descriptive
error, an acknowledged one gives no error. -/
theorem C6_acknowledgment_required_witness :
    (CreateIndex silentService connectedWorld testHandle "unit_1").2
        = .ok (some "elasticsearch did not acklowledge new index")
    ∧ ((DeleteIndex okService connectedWorld testHandle "unit_1").2 = .ok none ↔
        (okService.deleteIndexDo connectedWorld.trace "unit_1").2 = none
        ∧ ∃ r, (okService.deleteIndexDo connectedWorld.trace "unit_1").1 = some r
            ∧ r.acknowledged = true) :=
  ⟨(C6_acknowledgment_required silentService connectedWorld testHandle localClient
      "unit_1" "templ1" "body" rfl).1.2.2 { acknowledged := false } rfl rfl rfl,
   (C6_acknowledgment_required okService connectedWorld testHandle localClient
      "unit_1" "templ1" "body" rfl).2.1.1⟩

/-! ## The shared connection handle -/

theorem perform_world {α : Type} (svc : Service) (invalid : Err → α)
    (cl : Option Client) (w : World) (call : Call) (reply : List Call → α) :
    (perform svc invalid cl w call reply).1.client = w.client
    ∧ ∃ more, (perform svc invalid cl w call reply).1.trace = w.trace ++ more := by
  cases cl
  · rw [perform_none]
    exact ⟨rfl, [], by simp⟩
  · exact ⟨rfl, [call], rfl⟩

theorem CreateIndex_world (svc : Service) (w : World) (es : Elastic) (index : String) :
    (CreateIndex svc w es index).1.client = w.client
    ∧ ∃ more, (CreateIndex svc w es index).1.trace = w.trace ++ more := by
  have hp := perform_world svc (fun e => (none, some e)) w.client w
    (Call.createIndex index es.mapping) (fun t => svc.createIndexDo t index es.mapping)
  unfold CreateIndex
  simp only [mapping_body_eq]
  generalize perform svc (fun e => (none, some e)) w.client w
    (Call.createIndex index es.mapping)
    (fun t => svc.createIndexDo t index es.mapping) = p at hp ⊢
  rcases p with ⟨w1, p | ⟨_ | r, _ | e⟩⟩
  · exact hp
  · exact hp
  · exact hp
  · dsimp only
    split_ifs <;> exact hp
  · exact hp

theorem checkOwnIndex_world (svc : Service) (w : World) (es : Elastic) :
    (checkOwnIndex svc w es).1.client = w.client
    ∧ ∃ more, (checkOwnIndex svc w es).1.trace = w.trace ++ more := by
  have hp := perform_world svc (fun e => (false, some e)) w.client w
    (Call.indexExists es.index) (fun t => svc.indexExistsDo t es.index)
  unfold checkOwnIndex
  generalize perform svc (fun e => (false, some e)) w.client w
    (Call.indexExists es.index) (fun t => svc.indexExistsDo t es.index) = p at hp ⊢
  rcases p with ⟨w1, p | ⟨isThere, err⟩⟩
  · exact hp
  · dsimp only at hp ⊢
    obtain ⟨hc1, m1, ht1⟩ := hp
    split_ifs with hcond
    · obtain ⟨hc2, m2, ht2⟩ := CreateIndex_world svc w1 es es.index
      unfold createIndex
      generalize CreateIndex svc w1 es es.index = r at hc2 ht2 ⊢
      rcases r with ⟨w2, p | _ | e⟩
      · exact ⟨hc2.trans hc1, m1 ++ m2, by simp only at ht2; rw [ht2, ht1, List.append_assoc]⟩
      · exact ⟨hc2.trans hc1, m1 ++ m2, by simp only at ht2; rw [ht2, ht1, List.append_assoc]⟩
      · exact ⟨hc2.trans hc1, m1 ++ m2, by
          simp only [logLine] at ht2 ⊢; rw [ht2, ht1, List.append_assoc]⟩
    · rcases err with _ | e
      · exact ⟨hc1, m1, ht1⟩
      · exact ⟨hc1, m1, ht1⟩

theorem newClient_failure (svc : Service) (w : World) (es : Elastic) (e : Err)
    (h : (svc.newSimpleClient w.trace w.url).2 = some e) :
    newClient svc w es
      = ({ w with trace := w.trace ++ [Call.newSimpleClient w.url],
                  logged := w.logged ++ ["Opening new Elastic connection to " ++ w.url] },
         some e) := by
  unfold newClient
  rcases hr : svc.newSimpleClient w.trace w.url with ⟨cl, err⟩
  rw [hr] at h
  simp only [logLine, hr]
  simp only at h
  subst h
  rfl

theorem newClient_success (svc : Service) (w : World) (es : Elastic) (cl : Option Client)
    (h : svc.newSimpleClient w.trace w.url = (cl, none)) :
    newClient svc w es
      = ({ w with client := cl, trace := w.trace ++ [Call.newSimpleClient w.url],
                  logged := w.logged ++ ["Opening new Elastic connection to " ++ w.url] },
         none) := by
  unfold newClient
  simp only [logLine, h]

/-- With the connection handle set, `checkClient` changes nothing and succeeds. -/
theorem checkClient_set (svc : Service) (w : World) (es : Elastic) (checkIndex : Bool)
    (c : Client) (h : w.client = some c) : checkClient svc w es checkIndex = (w, .ok none) := by
  unfold checkClient
  simp only [h]

/-- With no connection handle, `checkClient` starts with one construction attempt. -/
theorem checkClient_attempts (svc : Service) (w : World) (es : Elastic) (checkIndex : Bool)
    (h : w.client = none) :
    ∃ more, (checkClient svc w es checkIndex).1.trace
      = w.trace ++ Call.newSimpleClient w.url :: more := by
  unfold checkClient
  simp only [h]
  rcases hr : svc.newSimpleClient w.trace w.url with ⟨cl, _ | e⟩
  · rw [newClient_success svc w es cl hr]
    dsimp only
    split_ifs
    · obtain ⟨-, more, hm⟩ := checkOwnIndex_world svc
        { w with client := cl, trace := w.trace ++ [Call.newSimpleClient w.url],
                 logged := w.logged ++ ["Opening new Elastic connection to " ++ w.url] } es
      generalize checkOwnIndex svc
        { w with client := cl, trace := w.trace ++ [Call.newSimpleClient w.url],
                 logged := w.logged ++ ["Opening new Elastic connection to " ++ w.url] } es
        = r at hm ⊢
      rcases r with ⟨w2, p | a⟩
      · exact ⟨more, by simp only at hm ⊢; rw [hm]; simp⟩
      · exact ⟨more, by simp only at hm ⊢; rw [hm]; simp⟩
    · exact ⟨[], by simp⟩
  · rw [newClient_failure svc w es e (by rw [hr])]
    exact ⟨[], by simp [logLine]⟩

/-- With no connection handle and a construction that gives handle `c` without
error, `checkClient` stores `c`. -/
theorem checkClient_stores (svc : Service) (w : World) (es : Elastic) (checkIndex : Bool)
    (c : Client) (h : w.client = none)
    (hr : svc.newSimpleClient w.trace w.url = (some c, none)) :
    (checkClient svc w es checkIndex).1.client = some c := by
  unfold checkClient
  simp only [h]
  rw [newClient_success svc w es (some c) hr]
  dsimp only
  split_ifs
  · obtain ⟨hcl, -⟩ := checkOwnIndex_world svc
      { w with client := some c, trace := w.trace ++ [Call.newSimpleClient w.url],
               logged := w.logged ++ ["Opening new Elastic connection to " ++ w.url] } es
    generalize checkOwnIndex svc
      { w with client := some c, trace := w.trace ++ [Call.newSimpleClient w.url],
               logged := w.logged ++ ["Opening new Elastic connection to " ++ w.url] } es
      = r at hcl ⊢
    rcases r with ⟨w2, p | a⟩ <;> exact hcl
  · rfl

/-- C7: `checkClient` over the connection state.  With the handle set it
returns success and leaves the whole state as it is (no construction is
attempted).  With the handle absent and a failing construction it returns that
error after one construction attempt, the handle stays absent, and the next
call attempts construction again.  With the handle absent and a successful
construction the new handle is stored, and every later call changes nothing
and succeeds: once set, the handle is not replaced. -/
theorem C7_checkClient_lifecycle (svc : Service) (w : World) (es : Elastic)
    (checkIndex : Bool) :
    (∀ c, w.client = some c → checkClient svc w es checkIndex = (w, .ok none))
    ∧ (∀ e, w.client = none → (svc.newSimpleClient w.trace w.url).2 = some e →
        (checkClient svc w es checkIndex).2 = .ok (some e)
        ∧ (checkClient svc w es checkIndex).1.client = none
        ∧ (checkClient svc w es checkIndex).1.trace
            = w.trace ++ [Call.newSimpleClient w.url]
        ∧ ∀ (es2 : Elastic) (checkIndex2 : Bool), ∃ more,
            (checkClient svc (checkClient svc w es checkIndex).1 es2 checkIndex2).1.trace
              = w.trace ++ Call.newSimpleClient w.url :: Call.newSimpleClient w.url :: more)
    ∧ (∀ c, w.client = none → svc.newSimpleClient w.trace w.url = (some c, none) →
        (checkClient svc w es checkIndex).1.client = some c
        ∧ (checkClient svc w es false).2 = .ok none
        ∧ ∀ (es2 : Elastic) (checkIndex2 : Bool),
            checkClient svc (checkClient svc w es checkIndex).1 es2 checkIndex2
              = ((checkClient svc w es checkIndex).1, .ok none)) := by
  refine ⟨fun c hc => checkClient_set svc w es checkIndex c hc, ?_, ?_⟩
  · intro e hnone hfail
    have hrun : checkClient svc w es checkIndex
        = ({ w with trace := w.trace ++ [Call.newSimpleClient w.url],
                    logged := w.logged
                      ++ ["Opening new Elastic connection to " ++ w.url] ++ [e] },
           .ok (some e)) := by
      unfold checkClient
      simp only [hnone]
      rw [newClient_failure svc w es e hfail]
      simp only [logLine, hnone]
    rw [hrun]
    refine ⟨rfl, hnone, rfl, ?_⟩
    intro es2 checkIndex2
    obtain ⟨more, hm⟩ := checkClient_attempts svc
      { w with trace := w.trace ++ [Call.newSimpleClient w.url],
               logged := w.logged
                 ++ ["Opening new Elastic connection to " ++ w.url] ++ [e] }
      es2 checkIndex2 hnone
    exact ⟨more, by rw [hm]; simp⟩
  · intro c hnone hok
    have hst := checkClient_stores svc w es checkIndex c hnone hok
    refine ⟨hst, ?_, ?_⟩
    · unfold checkClient
      simp only [hnone]
      rw [newClient_success svc w es (some c) hok]
      rfl
    · intro es2 checkIndex2
      exact checkClient_set svc _ es2 checkIndex2 c hst

/-- C7 at work: on the service whose first construction fails, the first call
returns the error and stores nothing, the second call stores the handle, and
the third changes nothing. -/
theorem C7_checkClient_lifecycle_witness :
    (checkClient lateService freshWorld testHandle false).2
        = .ok (some "no Elasticsearch node available")
    ∧ (checkClient lateService freshWorld testHandle false).1.client = none
    ∧ (checkClient lateService
        (checkClient lateService freshWorld testHandle false).1 testHandle false).1.client
        = some localClient
    ∧ checkClient lateService connectedWorld testHandle true = (connectedWorld, .ok none) :=
  ⟨((C7_checkClient_lifecycle lateService freshWorld testHandle false).2.1
      "no Elasticsearch node available" rfl rfl).1,
   ((C7_checkClient_lifecycle lateService freshWorld testHandle false).2.1
      "no Elasticsearch node available" rfl rfl).2.1,
   ((C7_checkClient_lifecycle lateService
      (checkClient lateService freshWorld testHandle false).1 testHandle false).2.2
      localClient rfl rfl).1,
   (C7_checkClient_lifecycle lateService connectedWorld testHandle true).1 localClient rfl⟩

/-! ## Operations and the connection handle -/

/-- C8 as stated fails: `New` with an endpoint for which no connection handle
can be built returns a handle together with the error and leaves the
connection handle absent; `Index` on that handle then makes no construction
attempt (the state is as `New` left it, with the one attempt of `New` on the
trace) and runs into the absent handle. -/
theorem C8_operations_connect_counterexample :
    (New localService freshWorld "unit_test" "unit_test" "test" "").2.2
        = .ok (some "no Elasticsearch node available")
    ∧ (New localService freshWorld "unit_test" "unit_test" "test" "").1.client = none
    ∧ (New localService freshWorld "unit_test" "unit_test" "test" "").1.trace
        = [Call.newSimpleClient "unit_test"]
    ∧ Index localService (New localService freshWorld "unit_test" "unit_test" "test" "").1
          (New localService freshWorld "unit_test" "unit_test" "test" "").2.1 "bla" "1"
        = ((New localService freshWorld "unit_test" "unit_test" "test" "").1,
           (New localService freshWorld "unit_test" "unit_test" "test" "").2.1,
           .error .nilDereference) := by
  refine ⟨rfl, rfl, rfl, rfl⟩

theorem Do_nil_world (svc : Service) (w : World) (s : BulkService) (h : s.client = none) :
    (s.Do svc w).1 = w := by
  have hp := perform_none svc (fun e => ((none : Option BulkResponse), some e)) w
    (Call.bulk s.requests) (fun t => svc.bulkDo t s.requests)
  unfold BulkService.Do
  rw [h]
  generalize perform svc (fun e => ((none : Option BulkResponse), some e)) none w
    (Call.bulk s.requests) (fun t => svc.bulkDo t s.requests) = p at hp ⊢
  rcases p with ⟨w1, p | ⟨res, _ | e⟩⟩ <;> exact hp

/-- C8, amended: only `New` attempts to establish the connection handle.  With
the handle absent, `New` makes one construction attempt; `Index` (on a handle
in direct mode, or in bulk mode entered while the handle was absent), `Get`,
`Delete`, `Search`, `IndexExists`, `CreateIndex`, `DeleteIndex`,
`PutIndexTemplate` and `DeleteIndexTemplate` make none and leave the process
state as it is: the handle stays absent and no request goes out through it;
`StartBulk` builds its bulk service from the absent handle. -/
theorem C8_operations_use_handle_as_is (svc : Service) (w : World) (es : Elastic)
    (doc : Doc) (id index name body url docType mapping : String) (size : Int)
    (hw : w.client = none) :
    (∃ more, (New svc w url index docType mapping).1.trace
        = w.trace ++ Call.newSimpleClient (if url != "" then url else w.url) :: more)
    ∧ (es.bulk = none → (Index svc w es doc id).1 = w)
    ∧ (Index svc w (StartBulk w es size) doc id).1 = w
    ∧ (Get svc w es id).1 = w
    ∧ (Delete svc w es id).1 = w
    ∧ (Search svc w es doc).1 = w
    ∧ (IndexExists svc w es index).1 = w
    ∧ (CreateIndex svc w es index).1 = w
    ∧ (DeleteIndex svc w es index).1 = w
    ∧ (PutIndexTemplate svc w es name body).1 = w
    ∧ (DeleteIndexTemplate svc w es name).1 = w
    ∧ StartBulk w es size = { es with bulk := some { client := none }, bulkSize := size } := by
  refine ⟨?_, ?_, ?_, ?_, ?_, ?_, ?_, ?_, ?_, ?_, ?_, ?_⟩
  · unfold New
    by_cases hu : url = ""
    · subst hu
      obtain ⟨more, hm⟩ := checkClient_attempts svc w
        { index := index, docType := docType, mapping := mapping } false hw
      exact ⟨more, by simpa using hm⟩
    · obtain ⟨more, hm⟩ := checkClient_attempts svc { w with url := url }
        { index := index, docType := docType, mapping := mapping } false hw
      exact ⟨more, by simpa [hu] using hm⟩
  · intro hb
    unfold Index
    simp only [hb, Option.isSome_none, Bool.false_eq_true, if_false, hw]
    generalize (if id != "" then
        { ({ index := es.index, typ := es.docType, body := doc } : IndexRequest)
          with id := id }
      else { index := es.index, typ := es.docType, body := doc }) = q
    have hp := perform_none svc (fun e => ((none : Option IndexResponse), some e)) w
      (Call.index q) (fun t => svc.indexDo t q)
    generalize perform svc (fun e => ((none : Option IndexResponse), some e)) none w
      (Call.index q) (fun t => svc.indexDo t q) = p at hp ⊢
    rcases p with ⟨w1, p | ⟨_ | res, _ | e⟩⟩ <;> exact hp
  · unfold Index bulkIndex
    simp only [StartBulk, Option.isSome_some, if_true, hw]
    generalize (if id != "" then
        { ({ index := es.index, typ := es.docType, doc := doc } : BulkIndexRequest)
          with id := id }
      else { index := es.index, typ := es.docType, doc := doc }) = q
    split_ifs
    · have hd := Do_nil_world svc w
        (BulkService.Add { client := none, requests := [] } q) rfl
      generalize BulkService.Do svc w
        (BulkService.Add { client := none, requests := [] } q) = r at hd ⊢
      rcases r with ⟨w1, b2, p | ⟨res, _ | e⟩⟩ <;> exact hd
    · rfl
  · unfold Get
    rw [hw]
    exact perform_none svc _ w _ _
  · unfold Delete
    rw [hw]
    have hp := perform_none svc (fun e => ((none : Option DeleteResponse), some e)) w
      (Call.delete es.index es.docType id) (fun t => svc.deleteDo t es.index es.docType id)
    generalize perform svc (fun e => ((none : Option DeleteResponse), some e)) none w
      (Call.delete es.index es.docType id)
      (fun t => svc.deleteDo t es.index es.docType id) = p at hp ⊢
    rcases p with ⟨w1, p | ⟨_ | res, err⟩⟩ <;> exact hp
  · unfold Search
    rw [hw]
    exact perform_none svc _ w _ _
  · unfold IndexExists
    rw [hw]
    exact perform_none svc _ w _ _
  · have h := perform_none svc (fun e => ((none : Option AckResponse), some e)) w
      (Call.createIndex index es.mapping) (fun t => svc.createIndexDo t index es.mapping)
    unfold CreateIndex
    simp only [mapping_body_eq, hw]
    generalize perform svc (fun e => ((none : Option AckResponse), some e)) none w
      (Call.createIndex index es.mapping)
      (fun t => svc.createIndexDo t index es.mapping) = p at h ⊢
    rcases p with ⟨w1, p | ⟨_ | r, _ | e⟩⟩
    · exact h
    · exact h
    · exact h
    · dsimp only
      split_ifs <;> exact h
    · exact h
  · have h := perform_none svc (fun e => ((none : Option AckResponse), some e)) w
      (Call.deleteIndex index) (fun t => svc.deleteIndexDo t index)
    unfold DeleteIndex
    rw [hw]
    generalize perform svc (fun e => ((none : Option AckResponse), some e)) none w
      (Call.deleteIndex index) (fun t => svc.deleteIndexDo t index) = p at h ⊢
    rcases p with ⟨w1, p | ⟨_ | r, _ | e⟩⟩
    · exact h
    · exact h
    · exact h
    · dsimp only
      split_ifs <;> exact h
    · exact h
  · have h := perform_none svc (fun e => ((none : Option AckResponse), some e)) w
      (Call.indexPutTemplate name body) (fun t => svc.indexPutTemplateDo t name body)
    unfold PutIndexTemplate
    rw [hw]
    generalize perform svc (fun e => ((none : Option AckResponse), some e)) none w
      (Call.indexPutTemplate name body)
      (fun t => svc.indexPutTemplateDo t name body) = p at h ⊢
    rcases p with ⟨w1, p | ⟨_ | r, _ | e⟩⟩
    · exact h
    · exact h
    · exact h
    · dsimp only
      split_ifs <;> exact h
    · exact h
  · have h := perform_none svc (fun e => ((none : Option AckResponse), some e)) w
      (Call.indexDeleteTemplate name) (fun t => svc.indexDeleteTemplateDo t name)
    unfold DeleteIndexTemplate
    rw [hw]
    generalize perform svc (fun e => ((none : Option AckResponse), some e)) none w
      (Call.indexDeleteTemplate name)
      (fun t => svc.indexDeleteTemplateDo t name) = p at h ⊢
    rcases p with ⟨w1, p | ⟨_ | r, _ | e⟩⟩
    · exact h
    · exact h
    · exact h
    · dsimp only
      split_ifs <;> exact h
    · exact h
  · simp only [StartBulk, hw]

/-- C8 amended, at work on the start state. -/
theorem C8_operations_use_handle_as_is_witness :
    (Get okService freshWorld testHandle "1").1 = freshWorld
    ∧ StartBulk freshWorld testHandle 2
        = { testHandle with bulk := some { client := none }, bulkSize := 2 } :=
  ⟨(C8_operations_use_handle_as_is okService freshWorld testHandle "bla" "1" "unit_1"
      "templ1" "body" "" "test" "" 2 rfl).2.2.2.1,
   (C8_operations_use_handle_as_is okService freshWorld testHandle "bla" "1" "unit_1"
      "templ1" "body" "" "test" "" 2 rfl).2.2.2.2.2.2.2.2.2.2.2⟩

/-! ## Index with an explicit identifier -/

/-- C9: for every document `doc` and non-empty identifier `id`, on the handle
that `New` returns and with the connection handle set, `Index` sends one index
request carrying `id` for the handle's index and type; when the service
accepts the write under `id`, `Index` returns `id` and no error. -/
theorem C9_index_returns_requested_id (svc : Service) (w0 w : World) (c : Client)
    (url index docType mapping : String) (doc : Doc) (id : String) (hid : id ≠ "")
    (hw : w.client = some c)
    (hacc : svc.indexDo w.trace { index := index, typ := docType, body := doc, id := id }
      = (some { id := id }, none)) :
    Index svc w (New svc w0 url index docType mapping).2.1 doc id
      = ({ w with trace := w.trace ++
            [Call.index { index := index, typ := docType, body := doc, id := id }] },
         (New svc w0 url index docType mapping).2.1,
         .ok (id, none)) := by
  have hes : (New svc w0 url index docType mapping).2.1
      = { index := index, docType := docType, mapping := mapping } := rfl
  rw [hes]
  unfold Index
  simp only [Option.isSome_none, Bool.false_eq_true, if_false, bne_iff_ne, ne_eq, hid,
    not_false_eq_true, if_true, hw, perform_some, hacc]

/-- C9 at work: the first case of the package's indexing test. -/
theorem C9_index_returns_requested_id_witness :
    Index okService connectedWorld
        (New okService connectedWorld "" "unit_test" "test" "").2.1 "bla" "1"
      = ({ connectedWorld with trace :=
            [Call.index { index := "unit_test", typ := "test", body := "bla", id := "1" }] },
         (New okService connectedWorld "" "unit_test" "test" "").2.1,
         .ok ("1", none)) :=
  C9_index_returns_requested_id okService connectedWorld connectedWorld localClient
    "" "unit_test" "test" "" "bla" "1" (by decide) rfl rfl

/-! ## The handle's own index -/

/-- C10, the code at the failing input: the bound index `unit_test` is missing
on the service and the connection succeeds, yet `New` only constructs the
connection handle: no existence check and no creation is sent.  The check and
the creation are sent by `checkClient` when its argument is true, which `New`
never passes. -/
theorem C10_new_skips_own_index :
    okService.indexExistsDo [Call.newSimpleClient "http://127.0.0.1:9200"] "unit_test"
        = (false, none)
    ∧ New okService freshWorld "" "unit_test" "test" ""
        = ({ client := some localClient,
             trace := [Call.newSimpleClient "http://127.0.0.1:9200"],
             logged := ["Opening new Elastic connection to http://127.0.0.1:9200"] },
           testHandle, .ok none)
    ∧ (checkClient okService freshWorld testHandle true).1.trace
        = [Call.newSimpleClient "http://127.0.0.1:9200", Call.indexExists "unit_test",
           Call.createIndex "unit_test" ""] := by
  refine ⟨rfl, rfl, rfl⟩

end Elasticsearchv3
